import Mathlib

/-!
Verification development for the Voxelize application (src/main.py).

The application is a thin orchestration layer: it loads an STL mesh via the
trimesh library, voxelizes it at a pitch computed from the bounding box and a
user resolution, renders 3D/2D views of the occupancy grid, and exports the
grid and the occupied-cell coordinates.

Modelling conventions:
* numpy 3D boolean arrays are nested lists of booleans (`Matrix3`);
  `np.argwhere` is the row-major enumeration of the indices of true cells.
* Python floats are rationals; `np.sqrt` (a library routine) is passed as an
  explicit function parameter where the code calls it.
* External library calls that can raise (trimesh.load_mesh, mesh.voxelized)
  are passed in as `Except String` valued parameters; a `.error e` value
  models the call raising an exception with message `e`.
* Effects are explicit: emitted streamlit messages are returned as lists of
  strings, the temporary file's existence is a returned boolean, and numpy's
  global random generator state is threaded as a natural number.
-/

/-- A 3D boolean occupancy array, as nested lists (outer index = x,
middle = y, inner = z), mirroring a numpy bool array of shape (nx, ny, nz). -/
abbrev Matrix3 : Type := List (List (List Bool))

/-- The shape (nx, ny, nz) a numpy array would report: outer length and the
lengths of the first nested levels. -/
def shape3 (v : Matrix3) : Nat × Nat × Nat :=
  (v.length, (v.headD []).length, ((v.headD []).headD []).length)

/-- The nested lists form a rectangular (nx, ny, nz) array, as every numpy
array is. -/
def Rect3 (v : Matrix3) (nx ny nz : Nat) : Prop :=
  v.length = nx ∧ ∀ p ∈ v, p.length = ny ∧ ∀ r ∈ p, r.length = nz

instance (v : Matrix3) (nx ny nz : Nat) : Decidable (Rect3 v nx ny nz) := by
  unfold Rect3
  infer_instance

/-- The cell of `v` at index (i, j, k); false outside the array. -/
def cellAt (v : Matrix3) (p : Nat × Nat × Nat) : Bool :=
  ((v.getD p.1 []).getD p.2.1 []).getD p.2.2 false

/-- The number of true cells, i.e. the value of np.sum on a bool array. -/
def countTrue (v : Matrix3) : Nat :=
  (v.map (fun plane => (plane.map (fun row => row.countP id)).sum)).sum

/-- np.prod(matrix.shape): the total number of cells of the array. -/
def totalVoxels (v : Matrix3) : Nat :=
  (shape3 v).1 * (shape3 v).2.1 * (shape3 v).2.2

/-- The indices of the true entries of one innermost row, as triples with
the surrounding plane index i and row index j attached. -/
def argRow (i j : Nat) (row : List Bool) : List (Nat × Nat × Nat) :=
  (List.range row.length).filterMap (fun k =>
    if row.getD k false then some (i, j, k) else none)

/-- The indices of the true entries of one plane, as triples with the plane
index i attached. -/
def argPlane (i : Nat) (plane : List (List Bool)) : List (Nat × Nat × Nat) :=
  (List.range plane.length).flatMap (fun j => argRow i j (plane.getD j []))

/-- np.argwhere on a 3D bool array: the indices of the true cells, listed in
row-major (lexicographically ascending) order. -/
def argwhere (v : Matrix3) : List (Nat × Nat × Nat) :=
  (List.range v.length).flatMap (fun i => argPlane i (v.getD i []))

/-- The mesh object returned by trimesh: the fields the application reads.
`bounds` is the pair (componentwise min corner, componentwise max corner). -/
structure Mesh where
  vertices : List (ℚ × ℚ × ℚ)
  faces : List (Nat × Nat × Nat)
  volume : ℚ
  area : ℚ
  bounds : (ℚ × ℚ × ℚ) × (ℚ × ℚ × ℚ)
  deriving DecidableEq

/-- The voxel grid object: its boolean matrix and the pitch attached to it by
voxelize_mesh as the ad hoc attribute _pitch. -/
structure VoxelGrid where
  matrix : Matrix3
  pitch : ℚ
  deriving DecidableEq

/-- max(bounds[1] - bounds[0]): the largest bounding-box extent. -/
def maxExtent (m : Mesh) : ℚ :=
  max (m.bounds.2.1 - m.bounds.1.1)
    (max (m.bounds.2.2.1 - m.bounds.1.2.1) (m.bounds.2.2.2 - m.bounds.1.2.2))

/-- Result of load_stl_file: the returned value, the streamlit messages
emitted, and whether the temporary file still exists on return. -/
structure LoadResult where
  ret : Option Mesh
  errors : List String
  tempFileLeft : Bool
  deriving DecidableEq

/-- load_stl_file (src/main.py lines 12-29). The uploaded bytes are written
to a NamedTemporaryFile created with delete=False; `lib` is the
trimesh.load_mesh call on that path, `.error e` modelling it raising.
On success the file is unlinked and the mesh returned; an exception is caught,
one st.error message is emitted and None is returned. -/
def load_stl_file (lib : Except String Mesh) : LoadResult :=
  let tempFileExists := true
  match lib with
  | Except.ok meshObj =>
      let tempFileExists := false
      { ret := some meshObj, errors := [], tempFileLeft := tempFileExists }
  | Except.error e =>
      { ret := none
        errors := ["Error loading STL file: " ++ e]
        tempFileLeft := tempFileExists }

/-- voxelize_mesh (src/main.py lines 31-50). `lib` is the
mesh_obj.voxelized(pitch) library call. Computes
pitch = max(bounds[1] - bounds[0]) / resolution, builds the grid at that
pitch and stores the pitch on it as _pitch; an exception is caught, one
st.error message is emitted and None is returned. -/
def voxelize_mesh (lib : ℚ → Except String Matrix3) (meshObj : Mesh)
    (resolution : Nat) : Option VoxelGrid × List String :=
  let maxDimension := maxExtent meshObj
  let pitch := maxDimension / (resolution : ℚ)
  match lib pitch with
  | Except.ok mat => (some { matrix := mat, pitch := pitch }, [])
  | Except.error e => (none, ["Error voxelizing mesh: " ++ e])

/-- A linear congruential step: the concrete stand-in for one advance of
numpy's global pseudorandom generator. The claims about the generator depend
only on its state being set deterministically by seeding and advanced
deterministically by drawing, which this models; the distribution of the
drawn values is irrelevant to the application. -/
def lcg (s : Nat) : Nat := (1103515245 * s + 12345) % 2147483648

/-- np.random.seed(n): resets the global generator state as a deterministic
function of n alone, discarding the previous state. -/
def npRandomSeed (n : Nat) : Nat := n

/-- np.random.rand(n): draws n values in [0, 1), advancing the global
generator state; returns the drawn values and the new state. -/
def npRandomRand : Nat → Nat → List ℚ × Nat
  | 0, s => ([], s)
  | n + 1, s =>
      let s2 := lcg s
      let rest := npRandomRand n s2
      (((s2 : ℚ) / 2147483648) :: rest.1, rest.2)

/-- np.mean of a list of coordinates. -/
def meanQ (l : List Nat) : ℚ := ((l.map (fun n => (n : ℚ))).sum) / (l.length : ℚ)

/-- The color-value computation of create_voxel_visualization (src/main.py
lines 63-84): an if/elif chain on the color_by string, any unknown mode
falling through to the Random branch, which reseeds the global generator
with 42 and draws one value per point. Returns ((values, color title), new
generator state); sqrt is the np.sqrt library routine. -/
def colorValuesOf (sqrt : ℚ → ℚ) (color_by : String)
    (pts : List (Nat × Nat × Nat)) (rng : Nat) : (List ℚ × String) × Nat :=
  let x : List Nat := pts.map (fun p => p.1)
  let y : List Nat := pts.map (fun p => p.2.1)
  let z : List Nat := pts.map (fun p => p.2.2)
  if color_by = "Z-coordinate" then ((z.map (fun n => (n : ℚ)), "Z"), rng)
  else if color_by = "Y-coordinate" then ((y.map (fun n => (n : ℚ)), "Y"), rng)
  else if color_by = "X-coordinate" then ((x.map (fun n => (n : ℚ)), "X"), rng)
  else if color_by = "Distance from Center" then
    let cx := meanQ x
    let cy := meanQ y
    let cz := meanQ z
    ((pts.map (fun p =>
        sqrt (((p.1 : ℚ) - cx) ^ 2 + ((p.2.1 : ℚ) - cy) ^ 2
          + ((p.2.2 : ℚ) - cz) ^ 2)), "Distance"), rng)
  else if color_by = "Radial (XY)" then
    let cx := meanQ x
    let cy := meanQ y
    ((pts.map (fun p =>
        sqrt (((p.1 : ℚ) - cx) ^ 2 + ((p.2.1 : ℚ) - cy) ^ 2)), "Radial XY"),
      rng)
  else
    let rng2 := npRandomSeed 42
    let draw := npRandomRand pts.length rng2
    ((draw.1, "Random"), draw.2)

/-- The plotly 3D scatter figure, reduced to the data the application puts
into it. -/
structure Fig3 where
  points : List (Nat × Nat × Nat)
  colorValues : List ℚ
  colorTitle : String
  colormap : String
  markerSize : Nat
  opacity : ℚ
  deriving DecidableEq

/-- create_voxel_visualization (src/main.py lines 52-122). The mutable
environment it touches is (voxel grid, global generator state), threaded
explicitly. Reads the occupied positions with np.argwhere; on an empty
result emits one st.warning and returns None, otherwise builds the scatter
figure from the positions and the computed color values. -/
def create_voxel_visualization (sqrt : ℚ → ℚ) (st : VoxelGrid × Nat)
    (colormap : String) (color_by : String) (marker_size : Nat)
    (opacity : ℚ) : (Option Fig3 × List String) × (VoxelGrid × Nat) :=
  let voxel_grid := st.1
  let filled_positions := argwhere voxel_grid.matrix
  if filled_positions.length = 0 then
    ((none, ["No voxels found in the mesh"]), st)
  else
    let cv := colorValuesOf sqrt color_by filled_positions st.2
    ((some { points := filled_positions, colorValues := cv.1.1
             colorTitle := cv.1.2, colormap := colormap
             markerSize := marker_size, opacity := opacity }, []),
      (voxel_grid, cv.2))

/-- The slice axis: the x/y/z selectbox value. -/
inductive Axis
  | x
  | y
  | z
  deriving DecidableEq

/-- The dict lookup volume.shape[0/1/2 for x/y/z]. -/
def axisDim (s : Nat × Nat × Nat) : Axis → Nat
  | Axis.x => s.1
  | Axis.y => s.2.1
  | Axis.z => s.2.2

/-- The shape a numpy 2D array would report for nested lists. -/
def shape2 (l : List (List Bool)) : Nat × Nat := (l.length, (l.headD []).length)

/-- The slice volume[i,:,:], volume[:,i,:] or volume[:,:,i]. -/
def sliceData (volume : Matrix3) (a : Axis) (i : Nat) : List (List Bool) :=
  match a with
  | Axis.x => volume.getD i []
  | Axis.y => volume.map (fun plane => plane.getD i [])
  | Axis.z => volume.map (fun plane => plane.map (fun row => row.getD i false))

/-- The plotly heatmap figure, reduced to the data the application puts into
it. -/
structure SliceFig where
  data : List (List Bool)
  sliceIndex : Nat
  title : String
  colormap : String
  deriving DecidableEq

/-- create_slice_visualization (src/main.py lines 124-161). When no index is
supplied the mid-index shape[axis] // 2 is used. The grid is the only
mutable object it touches and is threaded explicitly. -/
def create_slice_visualization (st : VoxelGrid) (slice_axis : Axis)
    (slice_index : Option Nat) (colormap : String) : SliceFig × VoxelGrid :=
  let volume := st.matrix
  let idx :=
    match slice_index with
    | none => axisDim (shape3 volume) slice_axis / 2
    | some i => i
  let sdata := sliceData volume slice_axis idx
  let title :=
    (match slice_axis with
      | Axis.x => "X-slice at index "
      | Axis.y => "Y-slice at index "
      | Axis.z => "Z-slice at index ") ++ toString idx
  ({ data := sdata, sliceIndex := idx, title := title, colormap := colormap },
    st)

/-- The voxel information panel of display_mesh_info. -/
structure VoxelInfo where
  gridShape : Nat × Nat × Nat
  filledVoxels : Nat
  totalCount : Nat
  fillRatio : ℚ
  deriving DecidableEq

/-- The voxel half of display_mesh_info (src/main.py lines 180-189):
voxel_count = np.sum(matrix), total_voxels = np.prod(matrix.shape),
fill_ratio = voxel_count / total_voxels. -/
def display_mesh_info (voxel_grid : VoxelGrid) : VoxelInfo :=
  let voxel_count := countTrue voxel_grid.matrix
  let total_voxels := totalVoxels voxel_grid.matrix
  let fill_ratio := (voxel_count : ℚ) / (total_voxels : ℚ)
  { gridShape := shape3 voxel_grid.matrix, filledVoxels := voxel_count
    totalCount := total_voxels, fillRatio := fill_ratio }

/-- One data row of the coordinate export: the three indices of one occupied
cell, comma-separated. -/
def rowToCsv (p : Nat × Nat × Nat) : String :=
  toString p.1 ++ "," ++ toString p.2.1 ++ "," ++ toString p.2.2

/-- The coordinate export of main (src/main.py lines 343-355):
pd.DataFrame(np.argwhere(matrix), columns=['X','Y','Z']).to_csv(index=False),
as its list of lines: the header line followed by one line per occupied
cell. -/
def export_coordinates_csv (voxel_grid : VoxelGrid) : List String :=
  let filled_positions := argwhere voxel_grid.matrix
  "X,Y,Z" :: filled_positions.map rowToCsv

/-- What one interaction of main produces, per output channel. -/
structure MainOut where
  errors : List String
  warnings : List String
  infoShown : Bool
  fig3d : Option Fig3
  figSlice : Option SliceFig
  exportsOffered : Bool
  deriving DecidableEq

/-- The interaction flow of main for an uploaded file (src/main.py lines
225-355): load, then voxelize, then info panel, figures and exports, each
step guarded by the previous step having returned a value rather than
None. -/
def mainFlow (libLoad : Except String Mesh)
    (libVox : ℚ → Except String Matrix3) (sqrt : ℚ → ℚ) (resolution : Nat)
    (colormap color_by : String) (marker_size : Nat) (opacity : ℚ)
    (slice_axis : Axis) (slice_index : Nat) (slice_colormap : String)
    (rng : Nat) : MainOut :=
  let lr := load_stl_file libLoad
  match lr.ret with
  | none =>
      { errors := lr.errors, warnings := [], infoShown := false
        fig3d := none, figSlice := none, exportsOffered := false }
  | some mesh_obj =>
      let vres := voxelize_mesh libVox mesh_obj resolution
      match vres.1 with
      | none =>
          { errors := lr.errors ++ vres.2, warnings := [], infoShown := false
            fig3d := none, figSlice := none, exportsOffered := false }
      | some voxel_grid =>
          let r3 := create_voxel_visualization sqrt (voxel_grid, rng)
            colormap color_by marker_size opacity
          let rs := create_slice_visualization voxel_grid slice_axis
            (some slice_index) slice_colormap
          { errors := lr.errors ++ vres.2, warnings := r3.1.2
            infoShown := true, fig3d := r3.1.1, figSlice := some rs.1
            exportsOffered := true }

/-! Helper lemmas about the grid model. -/

/-- The lexicographic (row-major) strict order on index triples. -/
def idxLt (a b : Nat × Nat × Nat) : Prop :=
  a.1 < b.1 ∨ (a.1 = b.1 ∧ (a.2.1 < b.2.1 ∨ (a.2.1 = b.2.1 ∧ a.2.2 < b.2.2)))

theorem length_filterMap_ite {α : Type} (p : Nat → Bool) (g : Nat → α)
    (l : List Nat) :
    (l.filterMap (fun k => if p k then some (g k) else none)).length
      = l.countP p := by
  induction l with
  | nil => rfl
  | cons a t ih =>
      by_cases h : p a <;>
        simp [List.filterMap_cons, List.countP_cons, h, ih]

theorem countP_getD_range (row : List Bool) :
    (List.range row.length).countP (fun k => row.getD k false)
      = row.countP id := by
  induction row with
  | nil => rfl
  | cons b t ih =>
      rw [List.length_cons, List.range_succ_eq_map, List.countP_cons,
        List.countP_map]
      simp only [Function.comp_def, List.getD_cons_succ, List.getD_cons_zero,
        List.countP_cons, id]
      rw [ih]

theorem length_argRow (i j : Nat) (row : List Bool) :
    (argRow i j row).length = row.countP id := by
  unfold argRow
  rw [length_filterMap_ite (fun k => row.getD k false) (fun k => (i, j, k))]
  exact countP_getD_range row

theorem map_range_getD {α β : Type} (l : List α) (d : α) (F : α → β) :
    (List.range l.length).map (fun idx => F (l.getD idx d)) = l.map F := by
  induction l with
  | nil => rfl
  | cons a t ih =>
      rw [List.length_cons, List.range_succ_eq_map, List.map_cons,
        List.map_map]
      simp only [Function.comp_def, List.getD_cons_succ, List.getD_cons_zero]
      exact congrArg (List.cons (F a)) ih

theorem length_argPlane (i : Nat) (plane : List (List Bool)) :
    (argPlane i plane).length = (plane.map (fun row => row.countP id)).sum := by
  unfold argPlane
  rw [List.length_flatMap]
  have hfun : (List.length ∘ fun j => argRow i j (plane.getD j []))
      = fun j => (plane.getD j []).countP id := by
    funext j
    exact length_argRow i j (plane.getD j [])
  rw [hfun]
  exact congrArg List.sum
    (map_range_getD plane [] (fun row => row.countP id))

theorem length_argwhere (v : Matrix3) :
    (argwhere v).length = countTrue v := by
  unfold argwhere countTrue
  rw [List.length_flatMap]
  have hfun : (List.length ∘ fun i => argPlane i (v.getD i []))
      = fun i => ((v.getD i []).map (fun row => row.countP id)).sum := by
    funext i
    exact length_argPlane i (v.getD i [])
  rw [hfun]
  exact congrArg List.sum
    (map_range_getD v [] (fun plane => (plane.map (fun row => row.countP id)).sum))

theorem mem_argRow {q : Nat × Nat × Nat} {i j : Nat} {row : List Bool} :
    q ∈ argRow i j row
      ↔ q.1 = i ∧ q.2.1 = j ∧ q.2.2 < row.length
          ∧ row.getD q.2.2 false = true := by
  obtain ⟨a, b, c⟩ := q
  unfold argRow
  simp only [List.mem_filterMap, List.mem_range,
    Option.ite_none_right_eq_some, Option.some.injEq, Prod.mk.injEq]
  constructor
  · rintro ⟨k, hk, hrow, rfl, rfl, rfl⟩
    exact ⟨rfl, rfl, hk, hrow⟩
  · rintro ⟨rfl, rfl, hk, hrow⟩
    exact ⟨c, hk, hrow, rfl, rfl, rfl⟩

theorem mem_argPlane {q : Nat × Nat × Nat} {i : Nat}
    {plane : List (List Bool)} :
    q ∈ argPlane i plane
      ↔ q.1 = i ∧ q.2.1 < plane.length
          ∧ q.2.2 < (plane.getD q.2.1 []).length
          ∧ (plane.getD q.2.1 []).getD q.2.2 false = true := by
  unfold argPlane
  simp only [List.mem_flatMap, List.mem_range]
  constructor
  · rintro ⟨j, hj, hmem⟩
    obtain ⟨h1, h2, h3, h4⟩ := mem_argRow.mp hmem
    exact ⟨h1, h2 ▸ hj, h2 ▸ h3, h2 ▸ h4⟩
  · rintro ⟨h1, h2, h3, h4⟩
    exact ⟨q.2.1, h2, mem_argRow.mpr ⟨h1, rfl, h3, h4⟩⟩

theorem mem_argwhere {q : Nat × Nat × Nat} {v : Matrix3} :
    q ∈ argwhere v
      ↔ q.1 < v.length ∧ q.2.1 < (v.getD q.1 []).length
          ∧ q.2.2 < ((v.getD q.1 []).getD q.2.1 []).length
          ∧ cellAt v q = true := by
  unfold argwhere cellAt
  simp only [List.mem_flatMap, List.mem_range]
  constructor
  · rintro ⟨i, hi, hmem⟩
    obtain ⟨h1, h2, h3, h4⟩ := mem_argPlane.mp hmem
    exact ⟨h1 ▸ hi, h1 ▸ h2, h1 ▸ h3, h1 ▸ h4⟩
  · rintro ⟨h1, h2, h3, h4⟩
    exact ⟨q.1, h1, mem_argPlane.mpr ⟨rfl, h2, h3, h4⟩⟩

theorem pairwise_flatMap_range {α : Type} {R : α → α → Prop} (n : Nat)
    (f : Nat → List α) (h1 : ∀ idx, List.Pairwise R (f idx))
    (h2 : ∀ idx idx2, idx < idx2 → ∀ a ∈ f idx, ∀ b ∈ f idx2, R a b) :
    List.Pairwise R ((List.range n).flatMap f) := by
  rw [List.flatMap_def, List.pairwise_flatten]
  refine ⟨?_, ?_⟩
  · intro l hl
    rw [List.mem_map] at hl
    obtain ⟨idx, _, rfl⟩ := hl
    exact h1 idx
  · rw [List.pairwise_map]
    exact (List.pairwise_lt_range n).imp (fun hab => h2 _ _ hab)

theorem pairwise_argRow (i j : Nat) (row : List Bool) :
    List.Pairwise idxLt (argRow i j row) := by
  unfold argRow
  rw [List.pairwise_filterMap]
  refine (List.pairwise_lt_range row.length).imp ?_
  intro k k2 hk b hb b2 hb2
  simp only [Option.mem_def, Option.ite_none_right_eq_some,
    Option.some.injEq] at hb hb2
  obtain ⟨hcond, hbeq⟩ := hb
  obtain ⟨hcond2, hbeq2⟩ := hb2
  subst hbeq
  subst hbeq2
  exact Or.inr ⟨rfl, Or.inr ⟨rfl, hk⟩⟩

theorem pairwise_argPlane (i : Nat) (plane : List (List Bool)) :
    List.Pairwise idxLt (argPlane i plane) := by
  unfold argPlane
  refine pairwise_flatMap_range plane.length _ (fun j => pairwise_argRow i j _) ?_
  intro j j2 hj a ha b hb
  obtain ⟨_, ha2, _, _⟩ := mem_argRow.mp ha
  obtain ⟨hb1, hb2, _, _⟩ := mem_argRow.mp hb
  obtain ⟨ha1, _, _⟩ := mem_argRow.mp ha
  exact Or.inr ⟨ha1.trans hb1.symm, Or.inl (ha2 ▸ hb2 ▸ hj)⟩

theorem pairwise_argwhere (v : Matrix3) :
    List.Pairwise idxLt (argwhere v) := by
  unfold argwhere
  refine pairwise_flatMap_range v.length _
    (fun i => pairwise_argPlane i _) ?_
  intro i i2 hi a ha b hb
  obtain ⟨ha1, _, _, _⟩ := mem_argPlane.mp ha
  obtain ⟨hb1, _, _, _⟩ := mem_argPlane.mp hb
  exact Or.inl (ha1 ▸ hb1 ▸ hi)

theorem countTrue_le_of_rect {v : Matrix3} {nx ny nz : Nat}
    (h : Rect3 v nx ny nz) : countTrue v ≤ nx * ny * nz := by
  obtain ⟨hlen, hplanes⟩ := h
  unfold countTrue
  have hinner : ∀ s ∈ v.map (fun plane => (plane.map (fun row => row.countP id)).sum),
      s ≤ ny * nz := by
    intro s hs
    rw [List.mem_map] at hs
    obtain ⟨plane, hplane, rfl⟩ := hs
    obtain ⟨hpy, hrows⟩ := hplanes plane hplane
    have hrow : ∀ c ∈ plane.map (fun row => row.countP id), c ≤ nz := by
      intro c hc
      rw [List.mem_map] at hc
      obtain ⟨row, hrowmem, rfl⟩ := hc
      exact (List.countP_le_length id).trans (hrows row hrowmem).le
    have := List.sum_le_card_nsmul (plane.map (fun row => row.countP id)) nz hrow
    simpa [hpy, smul_eq_mul] using this
  have := List.sum_le_card_nsmul
    (v.map (fun plane => (plane.map (fun row => row.countP id)).sum))
    (ny * nz) hinner
  calc (v.map (fun plane => (plane.map (fun row => row.countP id)).sum)).sum
      ≤ (v.map (fun plane => (plane.map (fun row => row.countP id)).sum)).length
          • (ny * nz) := this
    _ = nx * (ny * nz) := by simp [hlen, smul_eq_mul]
    _ = nx * ny * nz := (mul_assoc nx ny nz).symm

theorem shape3_of_rect {v : Matrix3} {nx ny nz : Nat}
    (h : Rect3 v nx ny nz) (hx : 0 < nx) (hy : 0 < ny) :
    shape3 v = (nx, ny, nz) := by
  obtain ⟨hlen, hplanes⟩ := h
  cases v with
  | nil => simp at hlen; omega
  | cons p t =>
      obtain ⟨hpy, hrows⟩ := hplanes p (List.mem_cons_self p t)
      cases p with
      | nil => simp at hpy; omega
      | cons r t2 =>
          have hr := hrows r (List.mem_cons_self r t2)
          unfold shape3
          simp only [List.headD_cons, Prod.mk.injEq]
          exact ⟨hlen, hpy, hr⟩

theorem shape2_sliceData_x {v : Matrix3} {nx ny nz i : Nat}
    (h : Rect3 v nx ny nz) (hi : i < nx) (hy : 0 < ny) :
    shape2 (sliceData v Axis.x i) = (ny, nz) := by
  obtain ⟨hlen, hplanes⟩ := h
  have hvlen : i < v.length := by omega
  have hmem : v.getD i [] ∈ v := by
    rw [List.getD_eq_getElem v [] hvlen]
    exact List.getElem_mem hvlen
  obtain ⟨hpy, hrows⟩ := hplanes _ hmem
  unfold sliceData shape2
  cases hp : v.getD i [] with
  | nil =>
      rw [hp] at hpy
      simp at hpy
      omega
  | cons r t =>
      rw [hp] at hpy hrows
      have hr := hrows r (List.mem_cons_self r t)
      simp only [List.headD_cons, Prod.mk.injEq]
      exact ⟨hpy, hr⟩

theorem shape2_sliceData_y {v : Matrix3} {nx ny nz i : Nat}
    (h : Rect3 v nx ny nz) (hi : i < ny) (hx : 0 < nx) :
    shape2 (sliceData v Axis.y i) = (nx, nz) := by
  obtain ⟨hlen, hplanes⟩ := h
  cases v with
  | nil =>
      simp at hlen
      omega
  | cons p t =>
      obtain ⟨hpy, hrows⟩ := hplanes p (List.mem_cons_self p t)
      have hplen : i < p.length := by omega
      have hmem : p.getD i [] ∈ p := by
        rw [List.getD_eq_getElem p [] hplen]
        exact List.getElem_mem hplen
      have hr := hrows _ hmem
      unfold sliceData shape2
      simp only [List.map_cons, List.headD_cons, List.length_cons,
        List.length_map, Prod.mk.injEq]
      constructor
      · simp only [List.length_cons] at hlen
        omega
      · exact hr

theorem shape2_sliceData_z {v : Matrix3} {nx ny nz i : Nat}
    (h : Rect3 v nx ny nz) (hi : i < nz) (hx : 0 < nx) :
    shape2 (sliceData v Axis.z i) = (nx, ny) := by
  obtain ⟨hlen, hplanes⟩ := h
  cases v with
  | nil =>
      simp at hlen
      omega
  | cons p t =>
      obtain ⟨hpy, _⟩ := hplanes p (List.mem_cons_self p t)
      unfold sliceData shape2
      simp only [List.map_cons, List.headD_cons, List.length_cons,
        List.length_map, Prod.mk.injEq]
      constructor
      · simp only [List.length_cons] at hlen
        omega
      · exact hpy

/-! Claim theorems. -/

/-- C1: for every mesh and every resolution in [10, 200], voxelize_mesh
computes the pitch as max(bounds[1] - bounds[0]) / resolution, this pitch is
stored on the returned grid as _pitch, and the bounding-box max extent
divided by the pitch equals the resolution exactly. -/
theorem voxelize_mesh_pitch (lib : ℚ → Except String Matrix3)
    (meshObj : Mesh) (resolution : Nat) (g : VoxelGrid)
    (hres1 : 10 ≤ resolution) (hres2 : resolution ≤ 200)
    (hext : 0 < maxExtent meshObj)
    (hg : (voxelize_mesh lib meshObj resolution).1 = some g) :
    g.pitch = maxExtent meshObj / (resolution : ℚ)
      ∧ maxExtent meshObj / g.pitch = (resolution : ℚ) := by
  simp only [voxelize_mesh] at hg
  cases hcall : lib (maxExtent meshObj / (resolution : ℚ)) with
  | error e =>
      rw [hcall] at hg
      simp at hg
  | ok mat =>
      rw [hcall] at hg
      simp only [Option.some.injEq] at hg
      subst hg
      have hr0 : (resolution : ℚ) ≠ 0 := Nat.cast_ne_zero.mpr (by omega)
      refine ⟨rfl, ?_⟩
      show maxExtent meshObj / (maxExtent meshObj / (resolution : ℚ))
        = (resolution : ℚ)
      rw [div_div_eq_mul_div, mul_comm, mul_div_assoc, div_self hext.ne',
        mul_one]

/-- C1 witness: a cube mesh of extent 10 at resolution 50 yields pitch 1/5,
stored on the grid, with extent / pitch = 50. -/
theorem voxelize_mesh_pitch_witness :
    (({ matrix := [[[true]]], pitch := 1 / 5 } : VoxelGrid).pitch
        = maxExtent
            { vertices := [], faces := [], volume := 0, area := 0
              bounds := ((0, 0, 0), (10, 10, 10)) } / ((50 : Nat) : ℚ))
      ∧ maxExtent
            { vertices := [], faces := [], volume := 0, area := 0
              bounds := ((0, 0, 0), (10, 10, 10)) }
          / ({ matrix := [[[true]]], pitch := 1 / 5 } : VoxelGrid).pitch
        = ((50 : Nat) : ℚ) :=
  voxelize_mesh_pitch (fun _ => Except.ok [[[true]]])
    { vertices := [], faces := [], volume := 0, area := 0
      bounds := ((0, 0, 0), (10, 10, 10)) } 50
    { matrix := [[[true]]], pitch := 1 / 5 }
    (by norm_num) (by norm_num) (by norm_num [maxExtent])
    (by norm_num [voxelize_mesh, maxExtent])

/-- C2 counterexample: when trimesh.load_mesh raises, the except branch of
load_stl_file returns without unlinking, so the temporary file survives,
contradicting the claim that it is always deleted before return. -/
theorem load_stl_file_temp_file_cex :
    (load_stl_file (Except.error "parse failure")).tempFileLeft = true := rfl

/-- C2 amended: the temporary file is deleted before load_stl_file returns
when trimesh.load_mesh succeeds; when it raises, the file is not deleted and
survives the call. -/
theorem load_stl_file_temp_file (m : Mesh) (e : String) :
    (load_stl_file (Except.ok m)).tempFileLeft = false
      ∧ (load_stl_file (Except.error e)).tempFileLeft = true :=
  ⟨rfl, rfl⟩

/-- C6: in mode Random the coloring computation re-seeds the generator with
the fixed seed 42, so its scalar sequence does not depend on the incoming
generator state, and a repeated render (feeding the state left by the first
render into the second) produces the identical scalar sequence. -/
theorem random_coloring_deterministic (sqrt : ℚ → ℚ)
    (pts : List (Nat × Nat × Nat)) (s1 s2 : Nat) :
    (colorValuesOf sqrt "Random" pts s1).1.1
        = (colorValuesOf sqrt "Random" pts s2).1.1
      ∧ (colorValuesOf sqrt "Random" pts
            ((colorValuesOf sqrt "Random" pts s1).2)).1.1
        = (colorValuesOf sqrt "Random" pts s1).1.1 := by
  exact ⟨rfl, rfl⟩

/-- C3: for a rectangular (nx, ny, nz) grid and any in-range index, the
slice extracted by create_slice_visualization is a 2D array whose shape is
the grid shape with the sliced dimension removed, and with no index supplied
the index used is the mid-index shape[axis] // 2. -/
theorem create_slice_visualization_shape (v : Matrix3) (pitch : ℚ)
    (cmap : String) (nx ny nz : Nat) (h : Rect3 v nx ny nz)
    (hx : 0 < nx) (hy : 0 < ny) (hz : 0 < nz) :
    (∀ i, i < nx →
        shape2 ((create_slice_visualization ⟨v, pitch⟩ Axis.x (some i)
            cmap).1.data) = (ny, nz))
      ∧ (∀ i, i < ny →
          shape2 ((create_slice_visualization ⟨v, pitch⟩ Axis.y (some i)
              cmap).1.data) = (nx, nz))
      ∧ (∀ i, i < nz →
          shape2 ((create_slice_visualization ⟨v, pitch⟩ Axis.z (some i)
              cmap).1.data) = (nx, ny))
      ∧ (∀ a, (create_slice_visualization ⟨v, pitch⟩ a none cmap).1.sliceIndex
            = axisDim (nx, ny, nz) a / 2) := by
  refine ⟨?_, ?_, ?_, ?_⟩
  · intro i hi
    exact shape2_sliceData_x h hi hy
  · intro i hi
    exact shape2_sliceData_y h hi hx
  · intro i hi
    exact shape2_sliceData_z h hi hx
  · intro a
    show axisDim (shape3 v) a / 2 = axisDim (nx, ny, nz) a / 2
    rw [shape3_of_rect ⟨h.1, h.2⟩ hx hy]

/-- C3 witness: on a concrete 2 x 2 x 2 grid, the x-slice at index 1 has
shape (2, 2) and the default z-slice index is 2 // 2 = 1. -/
theorem create_slice_visualization_shape_witness :
    shape2 ((create_slice_visualization
          ⟨[[[true, false], [false, false]], [[true, true], [false, true]]], 1⟩
          Axis.x (some 1) "Viridis").1.data) = (2, 2)
      ∧ shape2 ((create_slice_visualization
          ⟨[[[true, false], [false, false]], [[true, true], [false, true]]], 1⟩
          Axis.y (some 0) "Viridis").1.data) = (2, 2)
      ∧ shape2 ((create_slice_visualization
          ⟨[[[true, false], [false, false]], [[true, true], [false, true]]], 1⟩
          Axis.z (some 1) "Viridis").1.data) = (2, 2)
      ∧ (create_slice_visualization
          ⟨[[[true, false], [false, false]], [[true, true], [false, true]]], 1⟩
          Axis.z none "Viridis").1.sliceIndex = axisDim (2, 2, 2) Axis.z / 2 := by
  have h := create_slice_visualization_shape
    [[[true, false], [false, false]], [[true, true], [false, true]]] 1
    "Viridis" 2 2 2 (by decide) (by decide) (by decide) (by decide)
  exact ⟨h.1 1 (by decide), h.2.1 0 (by decide), h.2.2.1 1 (by decide),
    h.2.2.2 Axis.z⟩

/-- C4: the coordinate export has exactly one data row per occupied cell of
the grid, preceded by the header row X,Y,Z, each data row being the three
cell indices comma-separated. -/
theorem export_coordinates_csv_rows (vg : VoxelGrid) :
    (export_coordinates_csv vg).tail.length = countTrue vg.matrix
      ∧ (export_coordinates_csv vg).headD "" = "X,Y,Z"
      ∧ ∀ r ∈ (export_coordinates_csv vg).tail,
          ∃ p ∈ argwhere vg.matrix,
            r = toString p.1 ++ "," ++ toString p.2.1 ++ ","
              ++ toString p.2.2 := by
  unfold export_coordinates_csv
  refine ⟨?_, rfl, ?_⟩
  · simp only [List.tail_cons, List.length_map]
    exact length_argwhere vg.matrix
  · intro r hr
    simp only [List.tail_cons, List.mem_map] at hr
    obtain ⟨p, hp, rfl⟩ := hr
    exact ⟨p, hp, rfl⟩

/-- C4 witness: on the 1 x 1 x 1 grid with its single cell occupied, the
export has one data row after the X,Y,Z header, and that row is the
comma-separated indices of an occupied cell. -/
theorem export_coordinates_csv_rows_witness :
    (export_coordinates_csv ⟨[[[true]]], 1⟩).tail.length
        = countTrue [[[true]]]
      ∧ (export_coordinates_csv ⟨[[[true]]], 1⟩).headD "" = "X,Y,Z"
      ∧ ∃ p ∈ argwhere ([[[true]]] : Matrix3),
          rowToCsv (0, 0, 0)
            = toString p.1 ++ "," ++ toString p.2.1 ++ ","
              ++ toString p.2.2 := by
  have h := export_coordinates_csv_rows ⟨[[[true]]], 1⟩
  exact ⟨h.1, h.2.1, h.2.2 (rowToCsv (0, 0, 0)) (by decide)⟩

/-- C5: display_mesh_info computes the total voxel count as the product of
the grid shape dimensions and the fill ratio as occupied / total, which lies
in [0, 1]. -/
theorem display_mesh_info_fill_ratio (vg : VoxelGrid) (nx ny nz : Nat)
    (h : Rect3 vg.matrix nx ny nz) (hx : 0 < nx) (hy : 0 < ny)
    (hz : 0 < nz) :
    (display_mesh_info vg).totalCount = nx * ny * nz
      ∧ (display_mesh_info vg).fillRatio
          = (countTrue vg.matrix : ℚ) / (((nx * ny * nz : Nat) : ℚ))
      ∧ 0 ≤ (display_mesh_info vg).fillRatio
      ∧ (display_mesh_info vg).fillRatio ≤ 1 := by
  have hshape := shape3_of_rect h hx hy
  have htot : totalVoxels vg.matrix = nx * ny * nz := by
    unfold totalVoxels
    rw [hshape]
  have hcount := countTrue_le_of_rect h
  refine ⟨htot, ?_, ?_, ?_⟩
  · show (countTrue vg.matrix : ℚ) / ((totalVoxels vg.matrix : Nat) : ℚ) = _
    rw [htot]
  · show (0 : ℚ) ≤ (countTrue vg.matrix : ℚ) / ((totalVoxels vg.matrix : Nat) : ℚ)
    positivity
  · show (countTrue vg.matrix : ℚ) / ((totalVoxels vg.matrix : Nat) : ℚ) ≤ 1
    rw [htot]
    exact div_le_one_of_le₀ (by exact_mod_cast hcount) (by positivity)

/-- C5 witness: a concrete 2 x 2 x 2 grid with 4 occupied cells has total 8
and fill ratio 4/8, in [0, 1]. -/
theorem display_mesh_info_fill_ratio_witness :
    (display_mesh_info
        ⟨[[[true, false], [false, false]], [[true, true], [false, true]]],
          1⟩).totalCount = 2 * 2 * 2
      ∧ (display_mesh_info
          ⟨[[[true, false], [false, false]], [[true, true], [false, true]]],
            1⟩).fillRatio
        = (countTrue
            [[[true, false], [false, false]], [[true, true], [false, true]]]
              : ℚ) / (((2 * 2 * 2 : Nat) : ℚ))
      ∧ 0 ≤ (display_mesh_info
          ⟨[[[true, false], [false, false]], [[true, true], [false, true]]],
            1⟩).fillRatio
      ∧ (display_mesh_info
          ⟨[[[true, false], [false, false]], [[true, true], [false, true]]],
            1⟩).fillRatio ≤ 1 :=
  display_mesh_info_fill_ratio
    ⟨[[[true, false], [false, false]], [[true, true], [false, true]]], 1⟩
    2 2 2 (by decide) (by decide) (by decide) (by decide)

/-- C7: when mesh loading raises, load_stl_file catches it, emits exactly
one error message and yields None, and the interaction produces no info
panel, figures or exports; likewise when voxelization raises inside
voxelize_mesh. -/
theorem mainFlow_error_handling (libVox : ℚ → Except String Matrix3)
    (sqrt : ℚ → ℚ) (resolution : Nat) (colormap color_by : String)
    (marker_size : Nat) (opacity : ℚ) (slice_axis : Axis)
    (slice_index : Nat) (slice_colormap : String) (rng : Nat)
    (e : String) (m : Mesh) :
    mainFlow (Except.error e) libVox sqrt resolution colormap color_by
        marker_size opacity slice_axis slice_index slice_colormap rng
      = { errors := ["Error loading STL file: " ++ e], warnings := []
          infoShown := false, fig3d := none, figSlice := none
          exportsOffered := false }
      ∧ (libVox (maxExtent m / (resolution : ℚ)) = Except.error e →
        mainFlow (Except.ok m) libVox sqrt resolution colormap color_by
            marker_size opacity slice_axis slice_index slice_colormap rng
          = { errors := ["Error voxelizing mesh: " ++ e], warnings := []
              infoShown := false, fig3d := none, figSlice := none
              exportsOffered := false }) := by
  constructor
  · rfl
  · intro hvox
    simp only [mainFlow, load_stl_file, voxelize_mesh, hvox,
      List.nil_append]

/-- C7 witness: a voxelization library call that raises yields exactly the
one voxelization error message and no downstream output. -/
theorem mainFlow_error_handling_witness :
    mainFlow
        (Except.ok
          { vertices := [], faces := [], volume := 0, area := 0
            bounds := ((0, 0, 0), (1, 1, 1)) })
        (fun _ => Except.error "cannot voxelize") id 50 "Viridis"
        "Z-coordinate" 4 (4 / 5) Axis.z 0 "Viridis" 0
      = { errors := ["Error voxelizing mesh: cannot voxelize"]
          warnings := [], infoShown := false, fig3d := none
          figSlice := none, exportsOffered := false } :=
  (mainFlow_error_handling (fun _ => Except.error "cannot voxelize") id 50
    "Viridis" "Z-coordinate" 4 (4 / 5) Axis.z 0 "Viridis" 0
    "cannot voxelize"
    { vertices := [], faces := [], volume := 0, area := 0
      bounds := ((0, 0, 0), (1, 1, 1)) }).2 rfl

/-- C8: create_voxel_visualization returns no 3D figure exactly when the
grid has zero occupied cells, in which case it emits the one warning
message; on a grid with at least one occupied cell it returns a figure and
no warning. -/
theorem create_voxel_visualization_empty (sqrt : ℚ → ℚ) (vg : VoxelGrid)
    (rng : Nat) (colormap color_by : String) (marker_size : Nat)
    (opacity : ℚ) :
    ((create_voxel_visualization sqrt (vg, rng) colormap color_by
          marker_size opacity).1.1 = none
        ↔ countTrue vg.matrix = 0)
      ∧ (create_voxel_visualization sqrt (vg, rng) colormap color_by
            marker_size opacity).1.2
          = (if countTrue vg.matrix = 0
            then ["No voxels found in the mesh"] else []) := by
  rw [← length_argwhere]
  by_cases hk : (argwhere vg.matrix).length = 0 <;>
    simp [create_voxel_visualization, hk]

/-- C9: neither renderer mutates the grid: the grid component of the
threaded state after create_voxel_visualization and after
create_slice_visualization equals the grid before, for every choice of
visualization parameters. -/
theorem visualization_preserves_grid (sqrt : ℚ → ℚ) (vg : VoxelGrid)
    (rng : Nat) (colormap color_by : String) (marker_size : Nat)
    (opacity : ℚ) (slice_axis : Axis) (slice_index : Option Nat)
    (slice_colormap : String) :
    (create_voxel_visualization sqrt (vg, rng) colormap color_by
        marker_size opacity).2.1 = vg
      ∧ (create_slice_visualization vg slice_axis slice_index
          slice_colormap).2 = vg := by
  refine ⟨?_, rfl⟩
  by_cases hk : (argwhere vg.matrix).length = 0 <;>
    simp [create_voxel_visualization, hk]

/-- C10: the 3D renderer's point coordinates and the coordinate export's
rows are both the np.argwhere integer cell indices: the figure's points are
argwhere, the export rows are argwhere rendered to text, and argwhere
enumerates exactly the occupied in-range cells in strictly ascending
row-major order. -/
theorem renderer_export_share_argwhere (sqrt : ℚ → ℚ) (vg : VoxelGrid)
    (rng : Nat) (colormap color_by : String) (marker_size : Nat)
    (opacity : ℚ) (f : Fig3)
    (hf : (create_voxel_visualization sqrt (vg, rng) colormap color_by
        marker_size opacity).1.1 = some f) :
    f.points = argwhere vg.matrix
      ∧ (export_coordinates_csv vg).tail
          = (argwhere vg.matrix).map rowToCsv
      ∧ (∀ p : Nat × Nat × Nat, p ∈ argwhere vg.matrix
          ↔ (p.1 < vg.matrix.length
              ∧ p.2.1 < (vg.matrix.getD p.1 []).length
              ∧ p.2.2 < ((vg.matrix.getD p.1 []).getD p.2.1 []).length
              ∧ cellAt vg.matrix p = true))
      ∧ List.Pairwise idxLt (argwhere vg.matrix) := by
  refine ⟨?_, rfl, fun p => mem_argwhere, pairwise_argwhere vg.matrix⟩
  by_cases hk : (argwhere vg.matrix).length = 0
  · simp [create_voxel_visualization, hk] at hf
  · have hval : (create_voxel_visualization sqrt (vg, rng) colormap color_by
        marker_size opacity).1.1
      = some { points := argwhere vg.matrix
               colorValues :=
                 (colorValuesOf sqrt color_by (argwhere vg.matrix) rng).1.1
               colorTitle :=
                 (colorValuesOf sqrt color_by (argwhere vg.matrix) rng).1.2
               colormap := colormap, markerSize := marker_size
               opacity := opacity } := by
      simp [create_voxel_visualization, hk]
    rw [hval] at hf
    simp only [Option.some.injEq] at hf
    rw [← hf]

/-- C10 witness: on the 1 x 1 x 1 grid with its single cell occupied, the
figure's points are the argwhere indices, the export rows render them, the
index (0,0,0) is enumerated, and the enumeration is sorted. -/
theorem renderer_export_share_argwhere_witness :
    ({ points := [(0, 0, 0)]
       colorValues :=
         (colorValuesOf id "Z-coordinate" (argwhere [[[true]]]) 0).1.1
       colorTitle :=
         (colorValuesOf id "Z-coordinate" (argwhere [[[true]]]) 0).1.2
       colormap := "Viridis", markerSize := 4, opacity := 1
        : Fig3 }).points = argwhere [[[true]]]
      ∧ (export_coordinates_csv ⟨[[[true]]], 1⟩).tail
          = (argwhere [[[true]]]).map rowToCsv
      ∧ (((0, 0, 0) : Nat × Nat × Nat) ∈ argwhere [[[true]]]
          ↔ (((0, 0, 0) : Nat × Nat × Nat).1 < ([[[true]]] : Matrix3).length
              ∧ ((0, 0, 0) : Nat × Nat × Nat).2.1
                  < (([[[true]]] : Matrix3).getD 0 []).length
              ∧ ((0, 0, 0) : Nat × Nat × Nat).2.2
                  < ((([[[true]]] : Matrix3).getD 0 []).getD 0 []).length
              ∧ cellAt [[[true]]] (0, 0, 0) = true))
      ∧ List.Pairwise idxLt (argwhere [[[true]]]) := by
  have h := renderer_export_share_argwhere id ⟨[[[true]]], 1⟩ 0 "Viridis"
    "Z-coordinate" 4 1
    { points := [(0, 0, 0)]
      colorValues :=
        (colorValuesOf id "Z-coordinate" (argwhere [[[true]]]) 0).1.1
      colorTitle :=
        (colorValuesOf id "Z-coordinate" (argwhere [[[true]]]) 0).1.2
      colormap := "Viridis", markerSize := 4, opacity := 1 }
    rfl
  exact ⟨h.1, h.2.1, h.2.2.1 (0, 0, 0), h.2.2.2⟩
